import Mathlib

/- Shallow embedding of the YoutubeData client (linky/core/youtube.py).

   The Python class talks to three external surfaces: the discovery SDK
   (subscriptions.list), direct HTTPS GET endpoints (search, commentThreads,
   videos statistics) and the transcript service.  All of them are modelled by
   an explicit environment `Env` of pure response functions; the lazily
   populated subscriptions cache is modelled by `YoutubeState`.  Python dicts
   are modelled as insertion-ordered association lists with overwrite-on-key
   semantics (`dictInsert`); Python `IndexError`/`KeyError` on the happy path
   is modelled by `Except PyError`.  Timestamps (datetime.utcnow, the
   publishedAfter parameter, publishedAt fields) are modelled as integer
   seconds since the epoch; the RFC 3339 string rendering of a timestamp is
   abstracted to the timestamp value itself. -/

set_option autoImplicit false

namespace Linky

/-- Model of `item["snippet"]["resourceId"]` of a subscription item. -/
structure ResourceId where
  channelId : String
  deriving DecidableEq, Repr

/-- Model of `item["snippet"]` of a subscription item. -/
structure SubSnippet where
  title : String
  description : String
  channelId : String
  resourceId : ResourceId
  deriving DecidableEq, Repr

/-- One item of the subscriptions.list response. -/
structure SubItem where
  snippet : SubSnippet
  deriving DecidableEq, Repr

/-- The raw JSON result of `subscriptions.list`, as cached in
`self.subscriptions`: only its `items` array is ever read. -/
structure Subscriptions where
  items : List SubItem
  deriving DecidableEq, Repr

/-- The mutable state of a `YoutubeData` instance: the lazily populated
subscriptions cache (`self.subscriptions`, initialised to `None`). -/
structure YoutubeState where
  subscriptions : Option Subscriptions
  deriving DecidableEq, Repr

/-- Errors the Python code can raise on its own happy paths: indexing `[0]`
into an empty `items` array raises `IndexError` (the spec's
`EmptyResultError`). -/
inductive PyError where
  | indexError
  deriving DecidableEq, Repr

/-- The query parameters of a GET request to the search endpoint, as read off
the URL built by the code.  `publishedAfter` is `none` when the URL carries no
such parameter. -/
structure VideoSearchRequest where
  channelId : String
  publishedAfter : Option Int
  maxResults : Nat
  order : String
  type : String
  deriving DecidableEq, Repr

/-- Model of `item["id"]` of a search response item. -/
structure SearchItemId where
  videoId : String
  deriving DecidableEq, Repr

/-- Model of `item["snippet"]` of a search response item. -/
structure SearchItemSnippet where
  title : String
  description : String
  publishedAt : Int
  deriving DecidableEq, Repr

/-- One item of a search response. -/
structure SearchItem where
  id : SearchItemId
  snippet : SearchItemSnippet
  deriving DecidableEq, Repr

/-- A search endpoint HTTP response: status code and parsed JSON `items`
array (`response_data.get("items", [])`: an absent array is the empty list). -/
structure SearchResponse where
  status : Nat
  items : List SearchItem
  deriving DecidableEq, Repr

/-- The `video_summary` dict built per search item. -/
structure VideoSummary where
  videoId : String
  title : String
  description : String
  publishedAt : Int
  deriving DecidableEq, Repr

/-- A value of the mapping returned by `get_videos_published_in_last_days`:
either a list of video summaries (HTTP 200) or a failure string. -/
abbrev VideosEntry := Sum (List VideoSummary) String

/-- The query parameters of a GET request to the commentThreads endpoint. -/
structure CommentsRequest where
  videoId : String
  maxResults : Nat
  deriving DecidableEq, Repr

/-- Model of `...["topLevelComment"]["snippet"]`. -/
structure CommentSnippet where
  textDisplay : String
  deriving DecidableEq, Repr

/-- Model of `item["snippet"]["topLevelComment"]`. -/
structure TopLevelComment where
  snippet : CommentSnippet
  deriving DecidableEq, Repr

/-- Model of `item["snippet"]` of a commentThreads response item. -/
structure CommentThreadSnippet where
  topLevelComment : TopLevelComment
  deriving DecidableEq, Repr

/-- One item of a commentThreads response. -/
structure CommentItem where
  snippet : CommentThreadSnippet
  deriving DecidableEq, Repr

/-- A commentThreads endpoint HTTP response. -/
structure CommentsResponse where
  status : Nat
  items : List CommentItem
  deriving DecidableEq, Repr

/-- Model of `item["statistics"]` of a videos response item: `likeCount` and
`dislikeCount` are optional string fields (`dict.get` yields `None` when
absent). -/
structure VideoStatistics where
  likeCount : Option String
  dislikeCount : Option String
  deriving DecidableEq, Repr

/-- One item of a videos (statistics) response. -/
structure StatsItem where
  statistics : VideoStatistics
  deriving DecidableEq, Repr

/-- A videos (statistics) endpoint HTTP response. -/
structure StatsResponse where
  status : Nat
  items : List StatsItem
  deriving DecidableEq, Repr

/-- The dict returned by `get_video_likes_dislikes`.  Values are
`Option String`: `none` models Python `None`, `some c` a count string or the
`"unknown"` sentinel. -/
structure LikesDislikes where
  likes : Option String
  dislikes : Option String
  deriving DecidableEq, Repr

/-- One caption fragment returned by the transcript service; the code reads
only its `text` field (the floating-point `start`/`duration` fields are unused
and omitted). -/
structure TranscriptFragment where
  text : String
  deriving DecidableEq, Repr

/-- The external world as seen by the client: the subscriptions.list result,
the current UTC time (in seconds; `datetime.utcnow()` is modelled as constant
over the run of one method call), and one pure response function per remote
endpoint.  `videosStats` is keyed by the video id (the only varying part of
that URL); `get_transcript` models `YouTubeTranscriptApi.get_transcript`. -/
structure Env where
  fetchSubscriptions : Subscriptions
  now : Int
  search : VideoSearchRequest → SearchResponse
  commentThreads : CommentsRequest → CommentsResponse
  videosStats : String → StatsResponse
  get_transcript : String → List TranscriptFragment

/-! ### Python dict model -/

/-- Python dict assignment `d[k] = v`: replace the value at an existing key in
place (keeping insertion order), else append the new pair. -/
def dictInsert {α : Type} (k : String) (v : α) : List (String × α) → List (String × α)
  | [] => [(k, v)]
  | (k', v') :: rest => if k' = k then (k, v) :: rest else (k', v') :: dictInsert k v rest

/-- Python dict lookup `d[k]` (as an `Option`). -/
def dictLookup {α : Type} (k : String) : List (String × α) → Option α
  | [] => none
  | (k', v') :: rest => if k' = k then some v' else dictLookup k rest

/-- Build a Python dict from a list of key/value pairs, left to right, with
overwrite-on-duplicate-key semantics (the semantics shared by the dict
comprehensions and the per-item `d[k] = v` loops of the code). -/
def pyDictAux {α : Type} : List (String × α) → List (String × α) → List (String × α)
  | [], acc => acc
  | (k, v) :: rest, acc => pyDictAux rest (dictInsert k v acc)

/-! ### The client operations -/

/-- `get_subscriptions`: populate the cache from the SDK call. -/
def get_subscriptions (env : Env) (s : YoutubeState) : YoutubeState :=
  { s with subscriptions := some env.fetchSubscriptions }

/-- The `if self.subscriptions is None: self.get_subscriptions()` prelude of
every accessor, followed by the read of `self.subscriptions`. -/
def ensureSubscriptions (env : Env) (s : YoutubeState) : Subscriptions × YoutubeState :=
  match s.subscriptions with
  | some subs => (subs, s)
  | none => (env.fetchSubscriptions, get_subscriptions env s)

/-- `get_metadata`: title, description and resource channel id of the first
subscription item; `IndexError` when `items` is empty. -/
def get_metadata (env : Env) (s : YoutubeState) :
    Except PyError (String × String × String) × YoutubeState :=
  ((match (ensureSubscriptions env s).1.items with
    | [] => .error .indexError
    | item :: _ =>
        .ok (item.snippet.title, item.snippet.description, item.snippet.resourceId.channelId)),
   (ensureSubscriptions env s).2)

/-- `get_items`: the raw `items` array of the cached subscriptions. -/
def get_items (env : Env) (s : YoutubeState) : List SubItem × YoutubeState :=
  ((ensureSubscriptions env s).1.items, (ensureSubscriptions env s).2)

/-- `get_channel_description`: dict comprehension
`snippet.channelId ↦ snippet.description` over the subscription items. -/
def get_channel_description (env : Env) (s : YoutubeState) :
    List (String × String) × YoutubeState :=
  (pyDictAux ((ensureSubscriptions env s).1.items.map fun it =>
      (it.snippet.channelId, it.snippet.description)) [],
   (ensureSubscriptions env s).2)

/-- `get_channel_titles`: list of `snippet.title` over the subscription items. -/
def get_channel_titles (env : Env) (s : YoutubeState) : List String × YoutubeState :=
  ((ensureSubscriptions env s).1.items.map fun it => it.snippet.title,
   (ensureSubscriptions env s).2)

/-- `get_channel_ids`: list of `snippet.resourceId.channelId` over the
subscription items. -/
def get_channel_ids (env : Env) (s : YoutubeState) : List String × YoutubeState :=
  ((ensureSubscriptions env s).1.items.map fun it => it.snippet.resourceId.channelId,
   (ensureSubscriptions env s).2)

/-- The search request URL built inside the `get_videos_published_in_last_days`
loop: `publishedAfter` set to the formatted `now − days` timestamp,
`maxResults=25`, `order=date`, `type=video`. -/
def mkSearchReq (channelId : String) (pa : Int) : VideoSearchRequest :=
  { channelId := channelId, publishedAfter := some pa, maxResults := 25,
    order := "date", type := "video" }

/-- The `video_summary` dict built from one search item. -/
def mkVideoSummary (item : SearchItem) : VideoSummary :=
  { videoId := item.id.videoId, title := item.snippet.title,
    description := item.snippet.description, publishedAt := item.snippet.publishedAt }

/-- The value stored under one channel key by the loop body of
`get_videos_published_in_last_days`: on status 200 the parsed summaries, else
the failure string embedding the status code. -/
def videosEntryFor (sf : VideoSearchRequest → SearchResponse) (pa : Int)
    (channelId : String) : VideosEntry :=
  let resp := sf (mkSearchReq channelId pa)
  if resp.status = 200 then .inl (resp.items.map mkVideoSummary)
  else .inr ("Failed to retrieve videos, status code: " ++ toString resp.status)

/-- The `for channelId in channelIds` loop of
`get_videos_published_in_last_days`, also recording the issued requests. -/
def videosLoop (sf : VideoSearchRequest → SearchResponse) (pa : Int) :
    List String → List (String × VideosEntry) → List VideoSearchRequest →
    List (String × VideosEntry) × List VideoSearchRequest
  | [], dict, reqs => (dict, reqs)
  | c :: rest, dict, reqs =>
      videosLoop sf pa rest (dictInsert c (videosEntryFor sf pa c) dict)
        (reqs ++ [mkSearchReq c pa])

/-- `get_videos_published_in_last_days(days)`: one search request per
subscribed channel id, `publishedAfter = now − days` (one day = 86400
seconds), building the dict `all_videos_simple`.  The issued request list is
returned alongside as the HTTP trace of the call. -/
def get_videos_published_in_last_days (env : Env) (s : YoutubeState) (days : Nat) :
    (List (String × VideosEntry) × List VideoSearchRequest) × YoutubeState :=
  (videosLoop env.search (env.now - (days : Int) * 86400) (get_channel_ids env s).1 [] [],
   (get_channel_ids env s).2)

/-- Python slice `s[:n]` for an `Int` bound: a nonnegative `n` keeps the first
`n` characters, a negative `n` drops the last `|n|`. -/
def pySlicePrefix (s : String) (n : Int) : String :=
  if 0 ≤ n then String.mk (s.data.take n.toNat)
  else String.mk (s.data.take (s.data.length - (-n).toNat))

/-- `get_video_transcript(videoId, maxLength=None)`: join all fragment texts
with single spaces; `if maxLength:` truncates only when `maxLength` is truthy
(not `None` and not `0`). -/
def get_video_transcript (env : Env) (videoId : String) (maxLength : Option Int) : String :=
  let srt := env.get_transcript videoId
  let transcript := String.intercalate " " (srt.map TranscriptFragment.text)
  match maxLength with
  | some n => if n ≠ 0 then pySlicePrefix transcript n else transcript
  | none => transcript

/-- The search request URL built by `get_all_video_descrition`: no
`publishedAfter` parameter, `maxResults=50`, `order=date`, `type=video`. -/
def mkDescSearchReq (channelId : String) : VideoSearchRequest :=
  { channelId := channelId, publishedAfter := none, maxResults := 50,
    order := "date", type := "video" }

/-- `get_all_video_descrition(channelId)`: on 200 build the dict
`videoId ↦ description` over the items; on non-200 print a failure line and
return the empty dict.  The printed line (if any) and the issued request are
returned alongside. -/
def get_all_video_descrition (env : Env) (channelId : String) :
    (List (String × String) × Option String) × VideoSearchRequest :=
  ((if (env.search (mkDescSearchReq channelId)).status = 200 then
      (pyDictAux ((env.search (mkDescSearchReq channelId)).items.map fun it =>
        (it.id.videoId, it.snippet.description)) [], none)
    else
      ([], some ("Failed to retrieve videos, status code: " ++
        toString (env.search (mkDescSearchReq channelId)).status))),
   mkDescSearchReq channelId)

/-- `get_video_comments(video_id)`: request with `maxResults=100`; on 200 the
`textDisplay` of each item's top-level comment, else the empty list.  The
issued request is returned alongside. -/
def get_video_comments (env : Env) (video_id : String) : List String × CommentsRequest :=
  let req : CommentsRequest := { videoId := video_id, maxResults := 100 }
  let resp := env.commentThreads req
  (if resp.status = 200 then
      resp.items.map fun it => it.snippet.topLevelComment.snippet.textDisplay
    else [], req)

/-- `get_video_likes_dislikes(video_id)`: on 200 read `items[0].statistics`
(`IndexError` when `items` is empty) and return the optional counts; on
non-200 return the `"unknown"` sentinel dict. -/
def get_video_likes_dislikes (env : Env) (video_id : String) :
    Except PyError LikesDislikes :=
  let resp := env.videosStats video_id
  if resp.status = 200 then
    match resp.items with
    | [] => .error .indexError
    | item :: _ =>
        .ok { likes := item.statistics.likeCount, dislikes := item.statistics.dislikeCount }
  else
    .ok { likes := some "unknown", dislikes := some "unknown" }

/-! ### Dict and loop lemmas -/

theorem dictLookup_dictInsert_self {α : Type} (k : String) (v : α)
    (d : List (String × α)) : dictLookup k (dictInsert k v d) = some v := by
  induction d with
  | nil => simp [dictInsert, dictLookup]
  | cons p rest ih =>
      obtain ⟨k', v'⟩ := p
      by_cases h : k' = k <;> simp [dictInsert, dictLookup, h, ih]

theorem dictLookup_dictInsert_ne {α : Type} (k k' : String) (v : α)
    (d : List (String × α)) (h : k' ≠ k) :
    dictLookup k (dictInsert k' v d) = dictLookup k d := by
  induction d with
  | nil => simp [dictInsert, dictLookup, h]
  | cons p rest ih =>
      obtain ⟨k'', v''⟩ := p
      by_cases h2 : k'' = k' <;> by_cases h3 : k'' = k <;>
        simp_all [dictInsert, dictLookup]

theorem mem_dictInsert {α : Type} (p : String × α) (k : String) (v : α)
    (d : List (String × α)) (hp : p ∈ dictInsert k v d) : p = (k, v) ∨ p ∈ d := by
  induction d with
  | nil => simpa [dictInsert] using hp
  | cons q rest ih =>
      obtain ⟨k', v'⟩ := q
      by_cases h : k' = k
      · simp only [dictInsert, if_pos h, List.mem_cons] at hp
        rcases hp with hp | hp
        · exact Or.inl hp
        · exact Or.inr (List.mem_cons_of_mem _ hp)
      · simp only [dictInsert, if_neg h, List.mem_cons] at hp
        rcases hp with hp | hp
        · exact Or.inr (by simp [hp])
        · rcases ih hp with h1 | h1
          · exact Or.inl h1
          · exact Or.inr (List.mem_cons_of_mem _ h1)

theorem fst_mem_dictInsert {α : Type} (c k : String) (v : α)
    (d : List (String × α)) :
    c ∈ (dictInsert k v d).map Prod.fst ↔ c = k ∨ c ∈ d.map Prod.fst := by
  induction d with
  | nil => simp [dictInsert]
  | cons q rest ih =>
      obtain ⟨k', v'⟩ := q
      by_cases h : k' = k
      · simp_all [dictInsert]
        try tauto
      · simp_all [dictInsert]
        try tauto

theorem mem_pyDictAux {α : Type} (p : String × α) (ps acc : List (String × α))
    (hp : p ∈ pyDictAux ps acc) : p ∈ ps ∨ p ∈ acc := by
  induction ps generalizing acc with
  | nil => exact Or.inr (by simpa [pyDictAux] using hp)
  | cons q rest ih =>
      obtain ⟨k, v⟩ := q
      simp only [pyDictAux] at hp
      rcases ih _ hp with h1 | h1
      · exact Or.inl (List.mem_cons_of_mem _ h1)
      · rcases mem_dictInsert _ _ _ _ h1 with h2 | h2
        · exact Or.inl (by simp [h2])
        · exact Or.inr h2

theorem fst_mem_pyDictAux {α : Type} (c : String) (ps acc : List (String × α)) :
    c ∈ (pyDictAux ps acc).map Prod.fst ↔ c ∈ ps.map Prod.fst ∨ c ∈ acc.map Prod.fst := by
  induction ps generalizing acc with
  | nil => simp [pyDictAux]
  | cons q rest ih =>
      obtain ⟨k, v⟩ := q
      simp only [pyDictAux, ih, fst_mem_dictInsert, List.map_cons, List.mem_cons]
      tauto

theorem videosLoop_snd (sf : VideoSearchRequest → SearchResponse) (pa : Int)
    (cs : List String) (dict : List (String × VideosEntry))
    (reqs : List VideoSearchRequest) :
    (videosLoop sf pa cs dict reqs).2 = reqs ++ cs.map (fun c => mkSearchReq c pa) := by
  induction cs generalizing dict reqs with
  | nil => simp [videosLoop]
  | cons c rest ih => simp [videosLoop, ih]

theorem videosLoop_lookup (sf : VideoSearchRequest → SearchResponse) (pa : Int)
    (cs : List String) (dict : List (String × VideosEntry))
    (reqs : List VideoSearchRequest) (c : String) :
    dictLookup c (videosLoop sf pa cs dict reqs).1 =
      if c ∈ cs then some (videosEntryFor sf pa c) else dictLookup c dict := by
  induction cs generalizing dict reqs with
  | nil => simp [videosLoop]
  | cons c' rest ih =>
      simp only [videosLoop, ih]
      by_cases h1 : c ∈ rest
      · simp [h1, List.mem_cons]
      · by_cases h2 : c = c'
        · subst h2
          simp [h1, dictLookup_dictInsert_self]
        · simp [h1, h2, dictLookup_dictInsert_ne c c' _ _ (Ne.symm h2)]

theorem mem_videosLoop (sf : VideoSearchRequest → SearchResponse) (pa : Int)
    (cs : List String) (dict : List (String × VideosEntry))
    (reqs : List VideoSearchRequest) (p : String × VideosEntry)
    (hp : p ∈ (videosLoop sf pa cs dict reqs).1) :
    p ∈ dict ∨ (p.1 ∈ cs ∧ p.2 = videosEntryFor sf pa p.1) := by
  induction cs generalizing dict reqs with
  | nil => exact Or.inl (by simpa [videosLoop] using hp)
  | cons c rest ih =>
      simp only [videosLoop] at hp
      rcases ih _ _ hp with h1 | h1
      · rcases mem_dictInsert _ _ _ _ h1 with h2 | h2
        · refine Or.inr ⟨by simp [h2], ?_⟩
          rw [h2]
        · exact Or.inl h2
      · exact Or.inr ⟨List.mem_cons_of_mem _ h1.1, h1.2⟩

theorem fst_mem_iff_isSome {α : Type} (k : String) (d : List (String × α)) :
    k ∈ d.map Prod.fst ↔ (dictLookup k d).isSome := by
  induction d with
  | nil => simp [dictLookup]
  | cons q rest ih =>
      obtain ⟨k', v'⟩ := q
      by_cases h : k' = k
      · subst h
        simp [dictLookup]
      · simp [dictLookup, h, ih, Ne.symm h]

/-! ### Concrete fixtures used by witnesses and counterexamples -/

/-- A one-entry subscriptions snapshot. -/
def subsW : Subscriptions :=
  { items := [{ snippet := { title := "A", description := "dA", channelId := "s1",
                             resourceId := { channelId := "c1" } } }] }

/-- A deterministic sample environment: search fails with 403 for channel
`"bad"` and otherwise returns one item published exactly at the requested
`publishedAfter` bound; statistics fail with 404 for video `"bad"`, return an
empty items array for video `"empty"`, and otherwise one item with only a
like count. -/
def envW : Env where
  fetchSubscriptions := subsW
  now := 1000000
  search := fun r =>
    if r.channelId = "bad" then { status := 403, items := [] }
    else
      { status := 200,
        items := [{ id := { videoId := "v1" },
                    snippet := { title := "T1", description := "D1",
                                 publishedAt := match r.publishedAfter with
                                   | some pa => pa
                                   | none => 0 } }] }
  commentThreads := fun _ =>
    { status := 200,
      items := [{ snippet := { topLevelComment := { snippet := { textDisplay := "nice" } } } }] }
  videosStats := fun v =>
    if v = "bad" then { status := 404, items := [] }
    else if v = "empty" then { status := 200, items := [] }
    else { status := 200,
           items := [{ statistics := { likeCount := some "42", dislikeCount := none } }] }
  get_transcript := fun _ => [{ text := "a" }]

/-- A fresh client state (cache not yet populated). -/
def st0 : YoutubeState := { subscriptions := none }

/-- A state whose cache is populated with an empty subscription list. -/
def stEmpty : YoutubeState := { subscriptions := some { items := [] } }

/-- A state whose cache is populated with `subsW`. -/
def stCached : YoutubeState := { subscriptions := some subsW }

/-! ### The claims -/

/-- Claim C2 as stated is false: the claim asserts that
`get_video_transcript(video_id, max_length=N)` has length at most `N` for
every `N ≥ 0`, but `max_length = 0` is falsy in Python, so the `if maxLength:`
guard skips the truncation and the full one-character transcript `"a"` is
returned, of length `1 > 0`. -/
theorem C2_counterexample_max_length_zero :
    ¬ ((get_video_transcript envW "v" (some 0)).length ≤ 0) := by decide

/-- Claim C2, amended: for every `N ≥ 1` the output of
`get_video_transcript(video_id, max_length=N)` has length at most `N`, and
with `max_length=None` the output is the full concatenation of all transcript
text fragments joined with single-space separators in their original order
(`max_length = 0`, being falsy, also returns the full concatenation). -/
theorem C2_transcript_truncation (env : Env) (vid : String) (N : Int) (h : 1 ≤ N) :
    ((get_video_transcript env vid (some N)).length : Int) ≤ N ∧
    get_video_transcript env vid none =
      String.intercalate " " ((env.get_transcript vid).map TranscriptFragment.text) := by
  constructor
  · have hN : ¬ N = 0 := by omega
    simp only [get_video_transcript, hN, ne_eq, not_false_eq_true, if_true]
    unfold pySlicePrefix
    rw [if_pos (by omega : (0 : Int) ≤ N)]
    have hlen : ∀ l : List Char, (String.mk l).length = l.length := fun _ => rfl
    rw [hlen, List.length_take]
    have h1 : min N.toNat (String.intercalate " "
        ((env.get_transcript vid).map TranscriptFragment.text)).data.length ≤ N.toNat :=
      Nat.min_le_left _ _
    have h2 : (N.toNat : Int) = N := Int.toNat_of_nonneg (by omega)
    omega
  · rfl

/-- Witness for the amended claim C2 at `N = 1`. -/
theorem C2_transcript_truncation_witness :
    ((get_video_transcript envW "v" (some 1)).length : Int) ≤ 1 ∧
    get_video_transcript envW "v" none =
      String.intercalate " " ((envW.get_transcript "v").map TranscriptFragment.text) :=
  C2_transcript_truncation envW "v" 1 (by decide)

/-- Claim C4: with a populated but empty subscription list, `get_metadata`
(which indexes `items[0]`) fails with the `IndexError`-modelled
`EmptyResultError`, while `get_channel_ids` returns the empty list without
error, leaving the state unchanged. -/
theorem C4_empty_subscriptions (env : Env) (s : YoutubeState)
    (h : s.subscriptions = some { items := [] }) :
    get_metadata env s = (.error .indexError, s) ∧
    get_channel_ids env s = ([], s) := by
  constructor <;> simp [get_metadata, get_channel_ids, ensureSubscriptions, h]

/-- Witness for claim C4 on the concrete empty-cache state. -/
theorem C4_empty_subscriptions_witness :
    get_metadata envW stEmpty = (.error .indexError, stEmpty) ∧
    get_channel_ids envW stEmpty = ([], stEmpty) :=
  C4_empty_subscriptions envW stEmpty rfl

/-- Claim C6: on HTTP 200 with a first item, `get_video_likes_dislikes`
returns the optional `likeCount`/`dislikeCount` fields (an absent
`dislikeCount` is a present-but-`none` field); on any non-200 status it
returns the `"unknown"`/`"unknown"` sentinel dict. -/
theorem C6_likes_dislikes (env : Env) (vid : String) :
    (∀ (item : StatsItem) (rest : List StatsItem),
      env.videosStats vid = { status := 200, items := item :: rest } →
      get_video_likes_dislikes env vid =
        .ok { likes := item.statistics.likeCount, dislikes := item.statistics.dislikeCount }) ∧
    ((env.videosStats vid).status ≠ 200 →
      get_video_likes_dislikes env vid =
        .ok { likes := some "unknown", dislikes := some "unknown" }) := by
  constructor
  · intro item rest h
    simp [get_video_likes_dislikes, h]
  · intro h
    simp [get_video_likes_dislikes, h]

/-- Witness for claim C6: statistics `likeCount = "42"`, no `dislikeCount`,
gives `likes = "42"`, `dislikes = none`; an HTTP 404 gives the sentinel. -/
theorem C6_likes_dislikes_witness :
    get_video_likes_dislikes envW "v" = .ok { likes := some "42", dislikes := none } ∧
    get_video_likes_dislikes envW "bad" =
      .ok { likes := some "unknown", dislikes := some "unknown" } :=
  ⟨(C6_likes_dislikes envW "v").1
      { statistics := { likeCount := some "42", dislikeCount := none } } [] (by decide),
   (C6_likes_dislikes envW "bad").2 (by decide)⟩

/-- Claim C7: `get_video_comments` issues a request capped at 100 results; on
HTTP 200 it returns the top-level comment display strings of the response
items in order (so no more comments than response items); on any non-200
status it returns the empty list, surfacing no error. -/
theorem C7_comments (env : Env) (vid : String) :
    (get_video_comments env vid).2 = { videoId := vid, maxResults := 100 } ∧
    ((env.commentThreads { videoId := vid, maxResults := 100 }).status = 200 →
      (get_video_comments env vid).1 =
        (env.commentThreads { videoId := vid, maxResults := 100 }).items.map
          (fun it => it.snippet.topLevelComment.snippet.textDisplay) ∧
      (get_video_comments env vid).1.length ≤
        (env.commentThreads { videoId := vid, maxResults := 100 }).items.length) ∧
    ((env.commentThreads { videoId := vid, maxResults := 100 }).status ≠ 200 →
      (get_video_comments env vid).1 = []) := by
  refine ⟨rfl, fun h => ?_, fun h => ?_⟩
  · simp [get_video_comments, h]
  · simp [get_video_comments, h]

/-- Witness for claim C7 on the concrete environment (one comment, HTTP 200). -/
theorem C7_comments_witness :
    (get_video_comments envW "v").2 = { videoId := "v", maxResults := 100 } ∧
    (get_video_comments envW "v").1 = ["nice"] :=
  ⟨(C7_comments envW "v").1,
   (((C7_comments envW "v").2.1 (by decide)).1).trans (by decide)⟩

/-- Claim C10: on an HTTP 200 response whose `items` array is empty (e.g. an
unknown video id with a 200 status), `get_video_likes_dislikes` indexes
`items[0]` and fails with an out-of-bounds error instead of returning a
likes/dislikes mapping. -/
theorem C10_stats_empty_items (env : Env) (vid : String)
    (h : env.videosStats vid = { status := 200, items := [] }) :
    get_video_likes_dislikes env vid = .error .indexError := by
  simp [get_video_likes_dislikes, h]

/-- Witness for claim C10 on the concrete environment. -/
theorem C10_stats_empty_items_witness :
    get_video_likes_dislikes envW "empty" = .error .indexError :=
  C10_stats_empty_items envW "empty" (by decide)

/-- Claim C1: for every subscribed channel id, the mapping returned by
`get_videos_published_in_last_days(days)` stores under that channel key the
per-channel entry: on HTTP 200 the `Sum.inl` list of video summaries (with
videoId, title, description, publishedAt parsed from the response items), on
any non-200 status the `Sum.inr` string
"Failed to retrieve videos, status code: <code>" in place of the list, so the
values are of mixed types (list or string) per key. -/
theorem C1_mixed_value_entries (env : Env) (s : YoutubeState) (days : Nat) (c : String)
    (hc : c ∈ (get_channel_ids env s).1) :
    dictLookup c (get_videos_published_in_last_days env s days).1.1 =
      some (videosEntryFor env.search (env.now - (days : Int) * 86400) c) ∧
    ((env.search (mkSearchReq c (env.now - (days : Int) * 86400))).status = 200 →
      videosEntryFor env.search (env.now - (days : Int) * 86400) c =
        .inl ((env.search (mkSearchReq c (env.now - (days : Int) * 86400))).items.map
          mkVideoSummary)) ∧
    ((env.search (mkSearchReq c (env.now - (days : Int) * 86400))).status ≠ 200 →
      videosEntryFor env.search (env.now - (days : Int) * 86400) c =
        .inr ("Failed to retrieve videos, status code: " ++
          toString (env.search (mkSearchReq c (env.now - (days : Int) * 86400))).status)) := by
  refine ⟨?_, fun h => ?_, fun h => ?_⟩
  · simp only [get_videos_published_in_last_days]
    rw [videosLoop_lookup]
    simp [hc]
  · simp [videosEntryFor, h]
  · simp [videosEntryFor, h]

/-- Witness for claim C1: the single subscribed channel `"c1"` gets an entry. -/
theorem C1_mixed_value_entries_witness :
    dictLookup "c1" (get_videos_published_in_last_days envW st0 7).1.1 =
      some (videosEntryFor envW.search (envW.now - (7 : Int) * 86400) "c1") :=
  (C1_mixed_value_entries envW st0 7 "c1" (by decide)).1

/-- Claim C9: the key set of the mapping returned by
`get_videos_published_in_last_days(days)` is exactly the set of subscribed
channel ids: every subscribed channel receives an entry and no key appears for
a channel that is not subscribed. -/
theorem C9_key_set_equals_channel_ids (env : Env) (s : YoutubeState) (days : Nat)
    (c : String) :
    c ∈ (get_videos_published_in_last_days env s days).1.1.map Prod.fst ↔
      c ∈ (get_channel_ids env s).1 := by
  simp only [get_videos_published_in_last_days]
  rw [fst_mem_iff_isSome, videosLoop_lookup]
  by_cases h : c ∈ (get_channel_ids env s).1 <;> simp [h, dictLookup]

/-- Claim C5: `get_videos_published_in_last_days(days)` issues exactly one
search request per subscribed channel id, each with
`publishedAfter = now − days` (in seconds), `maxResults = 25`, `order = date`
and `type = video`; consequently, whenever the server honours the
`publishedAfter` constraint of a request it answers with status 200, every
video summary stored in the returned mapping has `publishedAt ≥ now − days`. -/
theorem C5_search_constraints (env : Env) (s : YoutubeState) (days : Nat)
    (honest : ∀ r : VideoSearchRequest, (env.search r).status = 200 →
      ∀ it ∈ (env.search r).items, ∀ pa : Int, r.publishedAfter = some pa →
        pa ≤ it.snippet.publishedAt) :
    (get_videos_published_in_last_days env s days).1.2 =
      (get_channel_ids env s).1.map (fun c => mkSearchReq c (env.now - (days : Int) * 86400)) ∧
    (∀ r ∈ (get_videos_published_in_last_days env s days).1.2,
      r.publishedAfter = some (env.now - (days : Int) * 86400) ∧
      r.maxResults = 25 ∧ r.order = "date" ∧ r.type = "video") ∧
    (∀ p ∈ (get_videos_published_in_last_days env s days).1.1,
      ∀ l : List VideoSummary, p.2 = Sum.inl l →
        ∀ v ∈ l, env.now - (days : Int) * 86400 ≤ v.publishedAt) := by
  have hreqs : (get_videos_published_in_last_days env s days).1.2 =
      (get_channel_ids env s).1.map
        (fun c => mkSearchReq c (env.now - (days : Int) * 86400)) := by
    simp only [get_videos_published_in_last_days]
    rw [videosLoop_snd]
    simp
  refine ⟨hreqs, fun r hr => ?_, fun p hp l hl v hv => ?_⟩
  · rw [hreqs] at hr
    rcases List.mem_map.mp hr with ⟨c, _, rfl⟩
    exact ⟨rfl, rfl, rfl, rfl⟩
  · simp only [get_videos_published_in_last_days] at hp
    rcases mem_videosLoop _ _ _ _ _ _ hp with h1 | h1
    · simp at h1
    · rw [h1.2] at hl
      by_cases h200 :
          (env.search (mkSearchReq p.1 (env.now - (days : Int) * 86400))).status = 200
      · rw [videosEntryFor] at hl
        simp only [h200, if_true] at hl
        rw [Sum.inl.injEq] at hl
        rw [← hl] at hv
        rcases List.mem_map.mp hv with ⟨it, hit, rfl⟩
        have := honest (mkSearchReq p.1 (env.now - (days : Int) * 86400)) h200 it hit
          (env.now - (days : Int) * 86400) rfl
        simpa [mkVideoSummary] using this
      · rw [videosEntryFor] at hl
        simp [h200] at hl

/-- Witness for claim C5: on the honest sample environment, the single search
request issued for channel `"c1"` with `days = 7`. -/
theorem C5_search_constraints_witness :
    (get_videos_published_in_last_days envW st0 7).1.2 =
      [mkSearchReq "c1" (envW.now - (7 : Int) * 86400)] :=
  ((C5_search_constraints envW st0 7 (by
    intro r h200 it hit pa hpa
    by_cases hb : r.channelId = "bad"
    · simp [envW, hb] at h200
    · simp [envW, hb] at hit
      rw [hit]
      simp [hpa])).1).trans (by decide)

/-- Claim C3: once the subscriptions cache is populated, no derived accessor
re-fetches it: every accessor leaves the state unchanged, the pure accessors
return values depending only on the cached snapshot (in particular they are
independent of the environment), and `get_videos_published_in_last_days`
depends on the environment only through its search endpoint and clock, so any
call order without intervening invalidation yields mutually consistent
channel identifiers derived from one snapshot. -/
theorem C3_single_snapshot (env env' : Env) (s : YoutubeState) (subs : Subscriptions)
    (days : Nat) (h : s.subscriptions = some subs) :
    (get_metadata env s).2 = s ∧
    (get_items env s).2 = s ∧
    (get_channel_description env s).2 = s ∧
    (get_channel_titles env s).2 = s ∧
    (get_channel_ids env s).2 = s ∧
    (get_videos_published_in_last_days env s days).2 = s ∧
    (get_metadata env s).1 = (get_metadata env' s).1 ∧
    (get_items env s).1 = subs.items ∧
    (get_channel_description env s).1 =
      pyDictAux (subs.items.map fun it => (it.snippet.channelId, it.snippet.description)) [] ∧
    (get_channel_titles env s).1 = subs.items.map (fun it => it.snippet.title) ∧
    (get_channel_ids env s).1 = subs.items.map (fun it => it.snippet.resourceId.channelId) ∧
    (∀ env'' : Env, env''.search = env.search → env''.now = env.now →
      (get_videos_published_in_last_days env'' s days).1 =
        (get_videos_published_in_last_days env s days).1) := by
  have hsub : ensureSubscriptions env s = (subs, s) := by simp [ensureSubscriptions, h]
  have hsub' : ensureSubscriptions env' s = (subs, s) := by simp [ensureSubscriptions, h]
  refine ⟨?_, ?_, ?_, ?_, ?_, ?_, ?_, ?_, ?_, ?_, ?_, ?_⟩
  · simp [get_metadata, hsub]
  · simp [get_items, hsub]
  · simp [get_channel_description, hsub]
  · simp [get_channel_titles, hsub]
  · simp [get_channel_ids, hsub]
  · simp [get_videos_published_in_last_days, get_channel_ids, hsub]
  · simp [get_metadata, hsub, hsub']
  · simp [get_items, hsub]
  · simp [get_channel_description, hsub]
  · simp [get_channel_titles, hsub]
  · simp [get_channel_ids, hsub]
  · intro env'' hs hn
    have hsub'' : ensureSubscriptions env'' s = (subs, s) := by
      simp [ensureSubscriptions, h]
    simp [get_videos_published_in_last_days, get_channel_ids, hsub, hsub'', hs, hn]

/-- Witness for claim C3 on the concrete cached state. -/
theorem C3_single_snapshot_witness :
    (get_metadata envW stCached).2 = stCached ∧
    (get_items envW stCached).2 = stCached ∧
    (get_channel_description envW stCached).2 = stCached ∧
    (get_channel_titles envW stCached).2 = stCached ∧
    (get_channel_ids envW stCached).2 = stCached ∧
    (get_videos_published_in_last_days envW stCached 7).2 = stCached ∧
    (get_items envW stCached).1 = subsW.items ∧
    (get_channel_titles envW stCached).1 = ["A"] ∧
    (get_channel_ids envW stCached).1 = ["c1"] ∧
    (get_channel_description envW stCached).1 = [("s1", "dA")] := by
  obtain ⟨h1, h2, h3, h4, h5, h6, h7, h8, h9, h10, h11, h12⟩ :=
    C3_single_snapshot envW envW stCached subsW 7 rfl
  exact ⟨h1, h2, h3, h4, h5, h6, h8, h10.trans (by decide), h11.trans (by decide),
    h9.trans (by decide)⟩

/-- Claim C8: `get_all_video_descrition(channel_id)` issues a single-channel
search unconstrained by date and capped at 50 results; on HTTP 200 it returns
the mapping from video id to description over the response items (and logs
nothing); on any non-200 status it logs the failure line and returns the
empty mapping — a different failure policy from the per-channel-days variant,
whose per-channel entry embeds the error string in place of the list. -/
theorem C8_all_descriptions (env : Env) (cid : String) :
    (get_all_video_descrition env cid).2 = mkDescSearchReq cid ∧
    (mkDescSearchReq cid).publishedAfter = none ∧
    (mkDescSearchReq cid).maxResults = 50 ∧
    ((env.search (mkDescSearchReq cid)).status = 200 →
      (∀ v, v ∈ (get_all_video_descrition env cid).1.1.map Prod.fst ↔
        v ∈ (env.search (mkDescSearchReq cid)).items.map (fun it => it.id.videoId)) ∧
      (∀ p ∈ (get_all_video_descrition env cid).1.1,
        ∃ it ∈ (env.search (mkDescSearchReq cid)).items,
          p.1 = it.id.videoId ∧ p.2 = it.snippet.description) ∧
      (get_all_video_descrition env cid).1.2 = none) ∧
    ((env.search (mkDescSearchReq cid)).status ≠ 200 →
      (get_all_video_descrition env cid).1.1 = [] ∧
      (get_all_video_descrition env cid).1.2 =
        some ("Failed to retrieve videos, status code: " ++
          toString (env.search (mkDescSearchReq cid)).status)) ∧
    (∀ pa : Int, (env.search (mkSearchReq cid pa)).status ≠ 200 →
      videosEntryFor env.search pa cid =
        .inr ("Failed to retrieve videos, status code: " ++
          toString (env.search (mkSearchReq cid pa)).status)) := by
  refine ⟨rfl, rfl, rfl, fun h => ⟨?_, ?_, ?_⟩, fun h => ⟨?_, ?_⟩, fun pa h => ?_⟩
  · intro v
    simp only [get_all_video_descrition, h, if_true]
    rw [fst_mem_pyDictAux]
    simp only [List.map_map, List.map_nil, List.not_mem_nil, or_false]
    rw [show (Prod.fst ∘ fun it : SearchItem => (it.id.videoId, it.snippet.description)) =
      fun it : SearchItem => it.id.videoId from rfl]
  · intro p hp
    simp only [get_all_video_descrition, h, if_true] at hp
    rcases mem_pyDictAux _ _ _ hp with h1 | h1
    · rcases List.mem_map.mp h1 with ⟨it, hit, hpe⟩
      exact ⟨it, hit, by rw [← hpe], by rw [← hpe]⟩
    · simp at h1
  · simp [get_all_video_descrition, h]
  · simp [get_all_video_descrition, h]
  · simp [get_all_video_descrition, h]
  · simp [videosEntryFor, h]

/-- Witness for claim C8 on the concrete environment (HTTP 200, no log). -/
theorem C8_all_descriptions_witness :
    (get_all_video_descrition envW "c1").2 = mkDescSearchReq "c1" ∧
    (get_all_video_descrition envW "c1").1.2 = none :=
  ⟨(C8_all_descriptions envW "c1").1,
   ((C8_all_descriptions envW "c1").2.2.2.1 (by decide)).2.2⟩

end Linky
